import Mathlib

/-!
Verification of the vantron-remote-media-server WebSocket JSON-RPC dispatcher
(`src/vantron_remote_media_server/server.py`).

The embedding models the server's shared mutable state (`MediaPlayerServer.state`,
a `PlayerState` dataclass) together with a small heap of media dictionaries:
the Python code stores `self.state.media` as a reference to a dict allocated by
`handle_load`, and `get_state_dict` copies that reference (not the dict), so
dict identity is observable and is modelled by an address into `ServerState.heap`.

JSON values decoded by `json.loads` are modelled by `Json`; Python's dynamic
behavior of the dispatcher on non-dict requests (the `in` operator, `[]`
subscription, and the `.get` attribute) is modelled by `pyContains`,
`pyGetItem` and `pyGet`, which return `Except PyErr` mirroring the exception
each operation raises at runtime.  Exception message strings for runtime
errors (TypeError / AttributeError) are modelled as fixed descriptive texts;
the only message the source itself constructs is ValueError "URL is required".

Handlers return `Except PyErr Json × ServerState × List ServerState`:
the result (or the exception escaping the handler), the state after the call,
and the list of `broadcast_state` calls made, each recording the server state
at the moment of the call (`broadcast_state` serializes `get_state_dict()`
immediately, so recording the state determines the message).
-/

namespace VanMedia

/-- JSON values as produced by Python's `json.loads`.  Numbers are modelled as
rationals (Python ints and floats are conflated; the source never distinguishes
them).  Objects are association lists; `dictGet` takes the last binding,
matching Python's duplicate-key behavior when decoding JSON. -/
inductive Json where
  | null
  | bool (b : Bool)
  | num (q : ℚ)
  | str (s : String)
  | arr (elems : List Json)
  | obj (entries : List (String × Json))

/-- Python's `x is None` on a JSON-decoded value. -/
def Json.isNull : Json → Bool
  | .null => true
  | _ => false

/-- Python's `x == someString` on a JSON-decoded value: true exactly for the
equal string (equality across JSON types with a string is always false). -/
def Json.eqStr : Json → String → Bool
  | .str s, k => s == k
  | _, _ => false

/-- Python dict lookup for a JSON-decoded object: the last binding of a
duplicated key wins (as in `json.loads`). -/
def dictGet : List (String × Json) → String → Option Json
  | [], _ => none
  | (k', v) :: rest, k =>
    match dictGet rest k with
    | some w => some w
    | none => if k' = k then some v else none

/-- The Python exceptions that can arise in the modelled code paths. -/
inductive PyErr where
  | valueError (msg : String)
  | typeError (msg : String)
  | attributeError (msg : String)
  | keyError (msg : String)
deriving DecidableEq

/-- Python `str(e)` for the exception kinds above: the message text. -/
def pyStr : PyErr → String
  | .valueError m => m
  | .typeError m => m
  | .attributeError m => m
  | .keyError m => m

/-- Python type name of a JSON-decoded value (ints are conflated with floats;
used only inside runtime error message texts). -/
def pyTypeNm : Json → String
  | .null => "NoneType"
  | .bool _ => "bool"
  | .num _ => "float"
  | .str _ => "str"
  | .arr _ => "list"
  | .obj _ => "dict"

/-- Substring test, modelling Python's `key in someString`. -/
def strContains (s key : String) : Bool :=
  (s.splitOn key).length > 1

/-- Python's `key in x` for a JSON-decoded `x`: key membership for dicts,
element membership for lists, substring test for strings, and a `TypeError`
for the non-iterable types. -/
def pyContains (x : Json) (key : String) : Except PyErr Bool :=
  match x with
  | .obj kvs => .ok (dictGet kvs key).isSome
  | .arr xs => .ok (xs.any (fun e => e.eqStr key))
  | .str s => .ok (strContains s key)
  | j => .error (.typeError ("argument of type " ++ pyTypeNm j ++ " is not iterable"))

/-- Python's `x[key]` for a string key: dict lookup (KeyError when absent),
`TypeError` for lists and strings, `TypeError` for non-subscriptable types. -/
def pyGetItem (x : Json) (key : String) : Except PyErr Json :=
  match x with
  | .obj kvs =>
    match dictGet kvs key with
    | some v => .ok v
    | none => .error (.keyError key)
  | .arr _ => .error (.typeError "list indices must be integers or slices, not str")
  | .str _ => .error (.typeError "string indices must be integers")
  | j => .error (.typeError (pyTypeNm j ++ " object is not subscriptable"))

/-- Python's `x.get(key, default)`: defined for dicts only; every other
JSON-decoded value lacks the attribute and raises `AttributeError`. -/
def pyGet (x : Json) (key : String) (default : Json) : Except PyErr Json :=
  match x with
  | .obj kvs => .ok ((dictGet kvs key).getD default)
  | j => .error (.attributeError (pyTypeNm j ++ " object has no attribute get"))

/-- Python truthiness of a JSON-decoded value (used by `handle_load` for
`if ... autoplay ... else`). -/
def pyTruthy : Json → Bool
  | .null => false
  | .bool b => b
  | .num q => decide (q ≠ 0)
  | .str s => decide (s ≠ "")
  | .arr xs => !xs.isEmpty
  | .obj kvs => !kvs.isEmpty

/-- Numeric value of a list of decimal digit characters. -/
def digitsToNat (cs : List Char) : Nat :=
  cs.foldl (fun a c => a * 10 + (c.toNat - 48)) 0

/-- Decimal parsing for Python's `float(someString)`: optional sign, then
`digits`, `digits.digits`, `digits.` or `.digits` (whitespace-trimmed).
Exponents and the inf/nan spellings accepted by Python are not modelled;
no claim depends on them. -/
def parsePyFloat (s : String) : Option ℚ :=
  let cs := s.trim.toList
  let (neg, cs) :=
    match cs with
    | '-' :: r => (true, r)
    | '+' :: r => (false, r)
    | r => (false, r)
  let intPart := cs.takeWhile Char.isDigit
  let rest := cs.dropWhile Char.isDigit
  let mag : Option ℚ :=
    match rest with
    | [] => if intPart = [] then none else some (digitsToNat intPart : ℚ)
    | '.' :: frac =>
      let fracPart := frac.takeWhile Char.isDigit
      if frac.dropWhile Char.isDigit ≠ [] then none
      else if intPart = [] ∧ fracPart = [] then none
      else some ((digitsToNat intPart : ℚ) +
        (digitsToNat fracPart : ℚ) / ((10 : ℚ) ^ fracPart.length))
    | _ => none
  mag.map (fun q => if neg then -q else q)

/-- Python's `float(x)` on a JSON-decoded value: numbers pass through, bools
coerce to 1/0, numeric strings are parsed, everything else raises. -/
def pyFloat (x : Json) : Except PyErr ℚ :=
  match x with
  | .num q => .ok q
  | .bool b => .ok (if b then 1 else 0)
  | .str s =>
    match parsePyFloat s with
    | some q => .ok q
    | none => .error (.valueError ("could not convert string to float: " ++ s))
  | j => .error (.typeError ("float() argument must be a string or a real number, not " ++ pyTypeNm j))

/-- The media dict built by `handle_load` (server.py lines 225-230).
`url` is stored unvalidated, exactly as received. -/
structure MediaDict where
  url : Json
  media_type : String
  duration : ℚ
  position : ℚ

/-- The server's shared mutable state: the fields of the `PlayerState`
dataclass, plus a heap of allocated media dicts.  `media` holds the address of
the dict currently referenced by `self.state.media` (`none` models Python
`None`); `handle_load` allocates a fresh cell at the end of the heap and no
operation ever mutates an existing cell, mirroring the source, which only
rebinds `self.state.media`. -/
structure ServerState where
  state : String
  media : Option Nat
  volume : ℚ
  muted : Bool
  error : Option String
  heap : List MediaDict

/-- The initial state: `PlayerState()` with its dataclass defaults
(server.py lines 30-38, 47). -/
def initialServer : ServerState :=
  { state := "idle", media := none, volume := 1, muted := false, error := none, heap := [] }

/-- The dict returned by `get_state_dict` (server.py lines 161-169).  The
`media` entry copies the reference `self.state.media`, not the dict it points
to, so the snapshot and the live state share the media dict. -/
structure StateDict where
  state : String
  media : Option Nat
  volume : ℚ
  muted : Bool
  error : Option String

def get_state_dict (s : ServerState) : StateDict :=
  { state := s.state, media := s.media, volume := s.volume, muted := s.muted, error := s.error }

/-- JSON serialization of a media dict (key order as in the source literal). -/
def dumpMediaDict (d : MediaDict) : Json :=
  .obj [("url", d.url), ("media_type", .str d.media_type),
        ("duration", .num d.duration), ("position", .num d.position)]

/-- Serialization (`json.dumps`) of a `get_state_dict` result against a given heap: the media
reference is dereferenced at serialization time. -/
def dumpStateDict (heap : List MediaDict) (sd : StateDict) : Json :=
  .obj [("state", .str sd.state),
        ("media", match sd.media with
          | none => .null
          | some a => match heap[a]? with
            | some d => dumpMediaDict d
            | none => .null),
        ("volume", .num sd.volume),
        ("muted", .bool sd.muted),
        ("error", match sd.error with
          | none => .null
          | some e => .str e)]

/-- The serialized current state of a server. -/
def stateJson (s : ServerState) : Json :=
  dumpStateDict s.heap (get_state_dict s)

/-- The `stateChanged` notification built by `broadcast_state` /
`send_state_update` (server.py lines 117-121 and 127-131). -/
def stateChangedMsg (s : ServerState) : Json :=
  .obj [("jsonrpc", .str "2.0"), ("method", .str "stateChanged"), ("params", stateJson s)]

/-- A handler call's outcome: the returned value or the escaping exception,
the server state after the call, and the states at which `broadcast_state`
was called during it. -/
abbrev HOut := Except PyErr Json × ServerState × List ServerState

/-- Handler `handle_getState` (server.py lines 173-175): returns `get_state_dict()`
(serialized unchanged when the response is sent). -/
def handle_getState (s : ServerState) (_params : Json) : HOut :=
  (.ok (stateJson s), s, [])

/-- Handler `handle_getSupportedMediaTypes` (lines 177-179): the fixed list. -/
def handle_getSupportedMediaTypes (s : ServerState) (_params : Json) : HOut :=
  (.ok (.arr [.str "music"]), s, [])

/-- Handler `handle_play` (lines 184-190): paused to playing with a broadcast,
otherwise nothing; returns True either way. -/
def handle_play (s : ServerState) (_params : Json) : HOut :=
  if s.state = "paused" then
    ((.ok (.bool true)), { s with state := "playing" }, [{ s with state := "playing" }])
  else
    ((.ok (.bool true)), s, [])

/-- Handler `handle_pause` (lines 192-198): playing to paused with a broadcast,
otherwise nothing; returns True either way. -/
def handle_pause (s : ServerState) (_params : Json) : HOut :=
  if s.state = "playing" then
    ((.ok (.bool true)), { s with state := "paused" }, [{ s with state := "paused" }])
  else
    ((.ok (.bool true)), s, [])

/-- Handler `handle_stop` (lines 200-206): unconditionally go idle, clear media,
broadcast once, return True. -/
def handle_stop (s : ServerState) (_params : Json) : HOut :=
  ((.ok (.bool true)),
   { s with state := "idle", media := none },
   [{ s with state := "idle", media := none }])

/-- Handler `handle_setVolume` (lines 208-215): if `"level" in params`, coerce with
`float`, clamp with `max(0.0, min(1.0, _))`, store, broadcast; otherwise
return True untouched.  `in`, `[]` and `float` raise as in Python. -/
def handle_setVolume (s : ServerState) (params : Json) : HOut :=
  match pyContains params "level" with
  | .error e => (.error e, s, [])
  | .ok false => ((.ok (.bool true)), s, [])
  | .ok true =>
    match pyGetItem params "level" with
    | .error e => (.error e, s, [])
    | .ok lv =>
      match pyFloat lv with
      | .error e => (.error e, s, [])
      | .ok q =>
        ((.ok (.bool true)),
         { s with volume := max 0 (min 1 q) },
         [{ s with volume := max 0 (min 1 q) }])

/-- Handler `handle_load` (lines 217-235), in source order: raise ValueError when
`url` is absent; otherwise install a fresh media dict, then evaluate
`params.get("options", {}).get("autoplay", True)` (which raises
AttributeError when `options` is a non-dict value, after `media` was already
installed), then set the playback state by truthiness and broadcast. -/
def handle_load (s : ServerState) (params : Json) : HOut :=
  match pyContains params "url" with
  | .error e => (.error e, s, [])
  | .ok false => (.error (.valueError "URL is required"), s, [])
  | .ok true =>
    match pyGetItem params "url" with
    | .error e => (.error e, s, [])
    | .ok url =>
      let s1 : ServerState :=
        { s with media := some s.heap.length,
                 heap := s.heap ++ [{ url := url, media_type := "music", duration := 0, position := 0 }] }
      match pyGet params "options" (.obj []) with
      | .error e => (.error e, s1, [])
      | .ok opts =>
        match pyGet opts "autoplay" (.bool true) with
        | .error e => (.error e, s1, [])
        | .ok ap =>
          let s2 : ServerState := { s1 with state := if pyTruthy ap then "playing" else "paused" }
          ((.ok (.bool true)), s2, [s2])

/-- Calling `handle_client(params)` through the reflective dispatch
(`getattr(self, "handle_client")`): line 58 reads
`websocket.remote_address` on the decoded params value, which raises
AttributeError before anything else runs. -/
def handle_client_call (s : ServerState) (params : Json) : HOut :=
  (.error (.attributeError (pyTypeNm params ++ " object has no attribute remote_address")), s, [])

/-- A JSON-RPC success response (server.py line 107; key order as in the
source dict literal). -/
def resultResponse (rid : Json) (v : Json) : Json :=
  .obj [("jsonrpc", .str "2.0"), ("result", v), ("id", rid)]

/-- The source's `create_error_response` (server.py lines 151-159). -/
def create_error_response (rid : Json) (code : ℚ) (message : String) : Json :=
  .obj [("jsonrpc", .str "2.0"),
        ("error", .obj [("code", .num code), ("message", .str message)]),
        ("id", rid)]

/-- The frame written by `send_error` (server.py lines 137-146): an error
response with `id: null`. -/
def send_error_msg (code : ℚ) (message : String) : Json :=
  .obj [("jsonrpc", .str "2.0"),
        ("error", .obj [("code", .num code), ("message", .str message)]),
        ("id", .null)]

/-- A dispatch outcome: the response to send back (`none` for notifications),
or the exception escaping `handle_request`; plus state and broadcast calls. -/
abbrev ReqOut := Except PyErr (Option Json) × ServerState × List ServerState

/-- The try/except around `await handler(params)` (server.py lines 105-110):
a returned value becomes a success response, an escaping exception becomes an
InternalError response carrying `str(e)`; state changes and broadcasts made
before the exception persist. -/
def wrapCall (rid : Json) : HOut → ReqOut
  | (.ok v, s, evs) => (.ok (some (resultResponse rid v)), s, evs)
  | (.error e, s, evs) => (.ok (some (create_error_response rid (-32603) (pyStr e))), s, evs)

/-- Adapting a recursive `handle_request` call used as a handler (reachable
via `getattr(self, "handle_request")` for method name `"request"`): its
`Optional[dict]` return value is the handler result, with Python `None`
serializing as JSON null. -/
def innerToHandler : ReqOut → HOut
  | (.ok none, s, evs) => (.ok .null, s, evs)
  | (.ok (some j), s, evs) => (.ok j, s, evs)
  | (.error e, s, evs) => (.error e, s, evs)

/-- The dispatcher `handle_request` (server.py lines 85-110) on the decoded frame value.

For a dict request: a missing `"method"` key yields an InvalidRequest
response built with `request.get("id")` (so it is produced even when `id` is
absent); otherwise `params` and `request_id` default to `{}` and `None`, a
`None` request id means notification (no response, before any handler
lookup), and the handler is found by `getattr(self, f"handle_{method}")` -
which resolves exactly for the strings naming a `handle_`-prefixed attribute:
the seven protocol methods plus `"request"` (recursive dispatch on the params
value) and `"client"`.  Any other method value falls to MethodNotFound.

For a non-dict request the Python expressions raise before any handler runs:
`"method" not in request` raises TypeError on null/bool/number; on a list or
string that does contain `"method"`, `request["method"]` raises TypeError;
otherwise `request.get("id")` (line 88) raises AttributeError.  These escape
`handle_request` (only the handler call at line 106 sits in a try). -/
def handle_request (srv : ServerState) (request : Json) : ReqOut :=
  match request with
  | .obj kvs =>
    match hm : dictGet kvs "method" with
    | none =>
      (.ok (some (create_error_response ((dictGet kvs "id").getD .null) (-32600) "Invalid request")),
       srv, [])
    | some m =>
      if ((dictGet kvs "id").getD .null).isNull then (.ok none, srv, [])
      else
        match m with
        | .str "getState" =>
          wrapCall ((dictGet kvs "id").getD .null)
            (handle_getState srv ((dictGet kvs "params").getD (.obj [])))
        | .str "getSupportedMediaTypes" =>
          wrapCall ((dictGet kvs "id").getD .null)
            (handle_getSupportedMediaTypes srv ((dictGet kvs "params").getD (.obj [])))
        | .str "play" =>
          wrapCall ((dictGet kvs "id").getD .null)
            (handle_play srv ((dictGet kvs "params").getD (.obj [])))
        | .str "pause" =>
          wrapCall ((dictGet kvs "id").getD .null)
            (handle_pause srv ((dictGet kvs "params").getD (.obj [])))
        | .str "stop" =>
          wrapCall ((dictGet kvs "id").getD .null)
            (handle_stop srv ((dictGet kvs "params").getD (.obj [])))
        | .str "setVolume" =>
          wrapCall ((dictGet kvs "id").getD .null)
            (handle_setVolume srv ((dictGet kvs "params").getD (.obj [])))
        | .str "load" =>
          wrapCall ((dictGet kvs "id").getD .null)
            (handle_load srv ((dictGet kvs "params").getD (.obj [])))
        | .str "request" =>
          wrapCall ((dictGet kvs "id").getD .null)
            (innerToHandler (handle_request srv ((dictGet kvs "params").getD (.obj []))))
        | .str "client" =>
          wrapCall ((dictGet kvs "id").getD .null)
            (handle_client_call srv ((dictGet kvs "params").getD (.obj [])))
        | _ =>
          (.ok (some (create_error_response ((dictGet kvs "id").getD .null) (-32601) "Method not found")),
           srv, [])
  | .arr xs =>
    if xs.any (fun e => e.eqStr "method") then
      (.error (.typeError "list indices must be integers or slices, not str"), srv, [])
    else
      (.error (.attributeError "list object has no attribute get"), srv, [])
  | .str s =>
    if strContains s "method" then
      (.error (.typeError "string indices must be integers"), srv, [])
    else
      (.error (.attributeError "str object has no attribute get"), srv, [])
  | j => (.error (.typeError ("argument of type " ++ pyTypeNm j ++ " is not iterable")), srv, [])
termination_by sizeOf request
decreasing_by
  have hmem : ∀ (l : List (String × Json)) (k : String) (v : Json),
      dictGet l k = some v → sizeOf v < sizeOf l := by
    intro l
    induction l with
    | nil => intro k v h; simp [dictGet] at h
    | cons p t ih =>
      intro k v h
      obtain ⟨k', w⟩ := p
      rw [dictGet] at h
      cases hdg : dictGet t k with
      | some u =>
        simp only [hdg] at h
        injection h with h'
        subst h'
        have h2 := ih k u hdg
        simp only [List.cons.sizeOf_spec, Prod.mk.sizeOf_spec]
        omega
      | none =>
        simp only [hdg] at h
        by_cases hk : k' = k
        · rw [if_pos hk] at h
          injection h with h'
          subst h'
          simp only [List.cons.sizeOf_spec, Prod.mk.sizeOf_spec]
          omega
        · rw [if_neg hk] at h
          exact absurd h (by simp)
  have hne : kvs ≠ [] := by
    intro hk
    rw [hk] at hm
    simp [dictGet] at hm
  cases hp : dictGet kvs "params" with
  | some v =>
    have h2 := hmem kvs "params" v hp
    simp only [hp, Option.getD_some, Json.obj.sizeOf_spec]
    omega
  | none =>
    simp only [hp, Option.getD_none, Json.obj.sizeOf_spec]
    cases kvs with
    | nil => exact absurd rfl hne
    | cons q t =>
      have hq : 1 ≤ sizeOf q := by
        obtain ⟨a, b⟩ := q
        simp only [Prod.mk.sizeOf_spec]
        omega
      have ht : 1 ≤ sizeOf t := by
        cases t <;> simp only [List.cons.sizeOf_spec, List.nil.sizeOf_spec] <;> omega
      simp only [List.cons.sizeOf_spec, List.nil.sizeOf_spec]
      omega

/-- The source's `broadcast_state` (server.py lines 112-123) for a given set of connected
sessions: nothing is sent when no client is connected, otherwise every
connected session receives the serialized `stateChanged` notification. -/
def broadcast_state (conns : List Nat) (s : ServerState) : List (Nat × Json) :=
  if conns = [] then []
  else conns.map (fun c => (c, stateChangedMsg s))

/-- The frames delivered for a list of `broadcast_state` calls. -/
def sendsOfEvents (conns : List Nat) (events : List ServerState) : List (Nat × Json) :=
  (events.map (broadcast_state conns)).flatten

/-- One inbound frame as seen by the per-connection loop: either invalid JSON
text or a decoded JSON value. -/
inductive Frame where
  | malformed
  | parsed (j : Json)

/-- One iteration of the per-connection message loop (server.py lines 67-79),
for the connection `ws` with connected set `conns`: invalid JSON gets a
ParseError frame; otherwise the request is dispatched, broadcasts go out
first (during the handler), then the response (if any) is sent to `ws`; an
exception escaping `handle_request` is answered with the generic
InternalError frame.  Every branch falls through to reading the next frame. -/
def loop_step (srv : ServerState) (conns : List Nat) (ws : Nat) :
    Frame → ServerState × List (Nat × Json)
  | .malformed => (srv, [(ws, send_error_msg (-32700) "Parse error")])
  | .parsed j =>
    match handle_request srv j with
    | (.ok none, srv', evs) => (srv', sendsOfEvents conns evs)
    | (.ok (some r), srv', evs) => (srv', sendsOfEvents conns evs ++ [(ws, r)])
    | (.error _, srv', evs) =>
      (srv', sendsOfEvents conns evs ++ [(ws, send_error_msg (-32603) "Internal error")])

/-- The per-connection loop over a list of inbound frames, accumulating all
frames written to any session. -/
def loop_run (srv : ServerState) (conns : List Nat) (ws : Nat) :
    List Frame → ServerState × List (Nat × Json)
  | [] => (srv, [])
  | f :: fs =>
    let (srv1, out1) := loop_step srv conns ws f
    let (srv2, out2) := loop_run srv1 conns ws fs
    (srv2, out1 ++ out2)

/-- The server state after dispatching a sequence of decoded requests. -/
def runRequests (srv : ServerState) : List Json → ServerState
  | [] => srv
  | r :: rs => runRequests (handle_request srv r).2.1 rs

/-- Whether a JSON value is an object (a Python dict after decoding). -/
def Json.isObj : Json → Bool
  | .obj _ => true
  | _ => false

/-- The method values for which `getattr(self, f"handle_{method}")` finds an
attribute: the seven protocol methods plus the internal `request` and
`client` handler names.  Every other value (any non-string included, since
its `str()` rendering never matches a `handle_` attribute) has no handler. -/
def isHandlerMethod : Json → Bool
  | .str "getState" => true
  | .str "getSupportedMediaTypes" => true
  | .str "play" => true
  | .str "pause" => true
  | .str "stop" => true
  | .str "setVolume" => true
  | .str "load" => true
  | .str "request" => true
  | .str "client" => true
  | _ => false

/-- The dict-request arm of `handle_request`, restated as a non-recursive
function of the entry list (the reflective `"request"` arm calls the already
defined `handle_request`); definitionally equal to that arm and used as a
stepping stone for proofs (`handle_request_obj`). -/
def dispatchObj (srv : ServerState) (kvs : List (String × Json)) : ReqOut :=
  match hm : dictGet kvs "method" with
  | none =>
    (.ok (some (create_error_response ((dictGet kvs "id").getD .null) (-32600) "Invalid request")),
     srv, [])
  | some m =>
    if ((dictGet kvs "id").getD .null).isNull then (.ok none, srv, [])
    else
      match m, hm with
      | .str "getState", _ =>
        wrapCall ((dictGet kvs "id").getD .null)
          (handle_getState srv ((dictGet kvs "params").getD (.obj [])))
      | .str "getSupportedMediaTypes", _ =>
        wrapCall ((dictGet kvs "id").getD .null)
          (handle_getSupportedMediaTypes srv ((dictGet kvs "params").getD (.obj [])))
      | .str "play", _ =>
        wrapCall ((dictGet kvs "id").getD .null)
          (handle_play srv ((dictGet kvs "params").getD (.obj [])))
      | .str "pause", _ =>
        wrapCall ((dictGet kvs "id").getD .null)
          (handle_pause srv ((dictGet kvs "params").getD (.obj [])))
      | .str "stop", _ =>
        wrapCall ((dictGet kvs "id").getD .null)
          (handle_stop srv ((dictGet kvs "params").getD (.obj [])))
      | .str "setVolume", _ =>
        wrapCall ((dictGet kvs "id").getD .null)
          (handle_setVolume srv ((dictGet kvs "params").getD (.obj [])))
      | .str "load", _ =>
        wrapCall ((dictGet kvs "id").getD .null)
          (handle_load srv ((dictGet kvs "params").getD (.obj [])))
      | .str "request", _ =>
        wrapCall ((dictGet kvs "id").getD .null)
          (innerToHandler (handle_request srv ((dictGet kvs "params").getD (.obj []))))
      | .str "client", _ =>
        wrapCall ((dictGet kvs "id").getD .null)
          (handle_client_call srv ((dictGet kvs "params").getD (.obj [])))
      | _, _ =>
        (.ok (some (create_error_response ((dictGet kvs "id").getD .null) (-32601) "Method not found")),
         srv, [])

/-- Field access on a serialized JSON object (used to state facts about
response and notification frames). -/
def jField (j : Json) (k : String) : Option Json :=
  match j with
  | .obj kvs => dictGet kvs k
  | _ => none

/-- The media dict currently referenced by the player state, if any. -/
def mediaDeref (s : ServerState) : Option MediaDict :=
  s.media.bind (fun a => s.heap[a]?)

/-- A `get_state_dict` snapshot shares mutable structure with the live state
when both reference the same media dict (heap cell). -/
def sharesMediaRef (sd : StateDict) (s : ServerState) : Prop :=
  ∃ a, sd.media = some a ∧ s.media = some a

/-- The state produced by a successful `handle_load`: fresh media dict
installed, playback state decided by the (truthiness of the) autoplay value. -/
def loadState (srv : ServerState) (u : Json) (playing : Bool) : ServerState :=
  { srv with
    state := if playing then "playing" else "paused",
    media := some srv.heap.length,
    heap := srv.heap ++ [{ url := u, media_type := "music", duration := 0, position := 0 }] }

set_option maxHeartbeats 4000000 in
/-- Dispatch on a dict request computes as `dispatchObj`. -/
theorem handle_request_obj (srv : ServerState) (kvs : List (String × Json)) :
    handle_request srv (.obj kvs) = dispatchObj srv kvs := by
  rw [handle_request.eq_def]
  rfl

/-- A value found by `dictGet` is structurally smaller than the object. -/
theorem dictGet_sizeOf_lt (l : List (String × Json)) (k : String) (v : Json)
    (h : dictGet l k = some v) : sizeOf v < sizeOf l := by
  induction l with
  | nil => simp [dictGet] at h
  | cons p t ih =>
    obtain ⟨k', w⟩ := p
    rw [dictGet] at h
    cases hdg : dictGet t k with
    | some u =>
      simp only [hdg] at h
      injection h with h'
      subst h'
      have h2 := ih hdg
      simp only [List.cons.sizeOf_spec, Prod.mk.sizeOf_spec]
      omega
    | none =>
      simp only [hdg] at h
      by_cases hk : k' = k
      · rw [if_pos hk] at h
        injection h with h'
        subst h'
        simp only [List.cons.sizeOf_spec, Prod.mk.sizeOf_spec]
        omega
      · rw [if_neg hk] at h
        exact absurd h (by simp)

/-- The params value handed to a handler is structurally smaller than the
request object it came from (given the request has a method key). -/
theorem params_sizeOf_lt (kvs : List (String × Json)) (m : Json)
    (hm : dictGet kvs "method" = some m) :
    sizeOf ((dictGet kvs "params").getD (Json.obj [])) < sizeOf (Json.obj kvs) := by
  have hne : kvs ≠ [] := by
    intro hk
    rw [hk] at hm
    simp [dictGet] at hm
  cases hp : dictGet kvs "params" with
  | some v =>
    have h2 := dictGet_sizeOf_lt kvs "params" v hp
    simp only [hp, Option.getD_some, Json.obj.sizeOf_spec]
    omega
  | none =>
    simp only [hp, Option.getD_none, Json.obj.sizeOf_spec]
    cases kvs with
    | nil => exact absurd rfl hne
    | cons q t =>
      have hq : 1 ≤ sizeOf q := by
        obtain ⟨a, b⟩ := q
        simp only [Prod.mk.sizeOf_spec]
        omega
      have ht : 1 ≤ sizeOf t := by
        cases t <;> simp only [List.cons.sizeOf_spec, List.nil.sizeOf_spec] <;> omega
      simp only [List.cons.sizeOf_spec, List.nil.sizeOf_spec]
      omega

/-- On every decoded frame that is not a JSON object, `handle_request` raises:
the Python expressions on lines 87-94 fail before any handler can run, and
the state is untouched with no broadcast. -/
theorem handle_request_nonObj (srv : ServerState) (j : Json) (h : j.isObj = false) :
    ∃ e, handle_request srv j = (.error e, srv, []) := by
  cases j with
  | null => exact ⟨_, by rw [handle_request.eq_def]⟩
  | bool b => exact ⟨_, by rw [handle_request.eq_def]⟩
  | num q => exact ⟨_, by rw [handle_request.eq_def]⟩
  | str s =>
    by_cases hc : strContains s "method"
    · exact ⟨.typeError "string indices must be integers",
        by rw [handle_request.eq_def]; simp only [hc, if_true]⟩
    · exact ⟨.attributeError "str object has no attribute get",
        by rw [handle_request.eq_def]; simp only [hc, Bool.false_eq_true, if_false]⟩
  | arr xs =>
    by_cases hc : xs.any (fun e => e.eqStr "method")
    · exact ⟨.typeError "list indices must be integers or slices, not str",
        by rw [handle_request.eq_def]; simp only [hc, if_true]⟩
    · exact ⟨.attributeError "list object has no attribute get",
        by rw [handle_request.eq_def]; simp only [hc, Bool.false_eq_true, if_false]⟩
  | obj kvs => simp [Json.isObj] at h

/-- Wrapping with `wrapCall` only shapes the response; state and broadcasts pass through. -/
theorem wrapCall_snd (rid : Json) (out : HOut) : (wrapCall rid out).2 = out.2 := by
  obtain ⟨r, s, evs⟩ := out
  cases r <;> rfl

/-- Adapting with `innerToHandler` only shapes the result; state and broadcasts pass through. -/
theorem innerToHandler_snd (r : ReqOut) : (innerToHandler r).2 = r.2 := by
  obtain ⟨x, s, evs⟩ := r
  cases x with
  | ok o => cases o <;> rfl
  | error e => rfl

/-- Handler `handle_play` never touches the heap. -/
theorem handle_play_heap (srv : ServerState) (p : Json) :
    (handle_play srv p).2.1.heap = srv.heap := by
  unfold handle_play
  split <;> rfl

/-- Handler `handle_pause` never touches the heap. -/
theorem handle_pause_heap (srv : ServerState) (p : Json) :
    (handle_pause srv p).2.1.heap = srv.heap := by
  unfold handle_pause
  split <;> rfl

/-- Handler `handle_setVolume` never touches the heap. -/
theorem handle_setVolume_heap (srv : ServerState) (p : Json) :
    (handle_setVolume srv p).2.1.heap = srv.heap := by
  unfold handle_setVolume
  split
  · rfl
  · rfl
  · split
    · rfl
    · split <;> rfl

/-- Handler `handle_load` only ever appends to the heap. -/
theorem handle_load_heap (srv : ServerState) (p : Json) :
    ∃ t, (handle_load srv p).2.1.heap = srv.heap ++ t := by
  unfold handle_load
  split
  · exact ⟨[], by simp⟩
  · exact ⟨[], by simp⟩
  · split
    · exact ⟨[], by simp⟩
    · split
      · exact ⟨_, rfl⟩
      · split
        · exact ⟨_, rfl⟩
        · exact ⟨_, rfl⟩

/-- The dispatcher only ever appends to the heap: no existing media dict is
mutated or removed by any dispatched operation. -/
theorem handle_request_heap (n : Nat) :
    ∀ (req : Json) (srv : ServerState), sizeOf req ≤ n →
      ∃ t, (handle_request srv req).2.1.heap = srv.heap ++ t := by
  induction n with
  | zero =>
    intro req srv hle
    exact absurd hle (by cases req <;> simp)
  | succ n ih =>
    intro req srv hle
    cases hobj : req.isObj with
    | false =>
      obtain ⟨e, he⟩ := handle_request_nonObj srv req hobj
      rw [he]
      exact ⟨[], by simp⟩
    | true =>
      cases req with
      | obj kvs =>
        rw [handle_request_obj]
        unfold dispatchObj
        split
        · exact ⟨[], by simp⟩
        · rename_i m heq
          split
          · exact ⟨[], by simp⟩
          · split
            · simp only [wrapCall_snd]
              exact ⟨[], by simp [handle_getState]⟩
            · simp only [wrapCall_snd]
              exact ⟨[], by simp [handle_getSupportedMediaTypes]⟩
            · simp only [wrapCall_snd]
              exact ⟨[], by simp [handle_play_heap]⟩
            · simp only [wrapCall_snd]
              exact ⟨[], by simp [handle_pause_heap]⟩
            · simp only [wrapCall_snd]
              exact ⟨[], by simp [handle_stop]⟩
            · simp only [wrapCall_snd]
              exact ⟨[], by simp [handle_setVolume_heap]⟩
            · simp only [wrapCall_snd]
              exact handle_load_heap srv _
            · simp only [wrapCall_snd, innerToHandler_snd]
              have hlt := params_sizeOf_lt kvs _ heq
              have hsz : sizeOf ((dictGet kvs "params").getD (Json.obj [])) ≤ n := by
                have : sizeOf (Json.obj kvs) ≤ n + 1 := hle
                omega
              exact ih _ srv hsz
            · simp only [wrapCall_snd]
              exact ⟨[], by simp [handle_client_call]⟩
            · exact ⟨[], by simp⟩
      | null => simp [Json.isObj] at hobj
      | bool b => simp [Json.isObj] at hobj
      | num q => simp [Json.isObj] at hobj
      | str s => simp [Json.isObj] at hobj
      | arr xs => simp [Json.isObj] at hobj

/-- Dispatching any sequence of requests only ever appends to the heap. -/
theorem runRequests_heap (reqs : List Json) :
    ∀ srv : ServerState, ∃ t, (runRequests srv reqs).heap = srv.heap ++ t := by
  induction reqs with
  | nil => intro srv; exact ⟨[], by simp [runRequests]⟩
  | cons r rs ih =>
    intro srv
    obtain ⟨t1, h1⟩ := handle_request_heap (sizeOf r) r srv le_rfl
    obtain ⟨t2, h2⟩ := ih (handle_request srv r).2.1
    refine ⟨t1 ++ t2, ?_⟩
    simp only [runRequests]
    rw [h2, h1, List.append_assoc]

/-- C3: dispatching `stop` with a request id always returns `true`, leaves the
state `idle` with `media` absent, and makes exactly one `stateChanged`
broadcast call, unconditionally in the prior state (including when it was
already idle). -/
theorem stop_dispatch_unconditional (srv : ServerState) (kvs : List (String × Json)) (idv : Json)
    (hm : dictGet kvs "method" = some (.str "stop"))
    (hid : (dictGet kvs "id").getD .null = idv)
    (hnn : idv.isNull = false) :
    handle_request srv (.obj kvs) =
      (.ok (some (resultResponse idv (.bool true))),
       { srv with state := "idle", media := none },
       [{ srv with state := "idle", media := none }]) := by
  rw [handle_request_obj]
  unfold dispatchObj
  split
  · rename_i heq
    rw [heq] at hm
    exact absurd hm (by simp)
  · rename_i m heq
    rw [heq] at hm
    injection hm with hm2
    subst hm2
    simp only [hid, hnn, Bool.false_eq_true, if_false]
    rfl

/-- Witness for C3: a concrete `stop` request against the initial (already
idle) server state still answers `true` and broadcasts exactly once. -/
theorem stop_dispatch_unconditional_witness :
    handle_request initialServer (.obj [("method", .str "stop"), ("id", .num 3)]) =
      (.ok (some (resultResponse (.num 3) (.bool true))),
       { initialServer with state := "idle", media := none },
       [{ initialServer with state := "idle", media := none }]) :=
  stop_dispatch_unconditional initialServer _ (.num 3) rfl rfl rfl

/-- C5: `play` moves `paused` to `playing` with one broadcast and otherwise
returns `true` leaving the whole state untouched with no broadcast; `pause`
is symmetric on `playing`. -/
theorem play_pause_guards (srv : ServerState) (p : Json) :
    handle_play srv p =
      (if srv.state = "paused" then
        ((.ok (.bool true)), { srv with state := "playing" }, [{ srv with state := "playing" }])
      else
        ((.ok (.bool true)), srv, [])) ∧
    handle_pause srv p =
      (if srv.state = "playing" then
        ((.ok (.bool true)), { srv with state := "paused" }, [{ srv with state := "paused" }])
      else
        ((.ok (.bool true)), srv, [])) :=
  ⟨rfl, rfl⟩

/-- C6 counterexample: a decoded request with no `id` and no `method` (the
empty object) does get a response from the dispatcher - the InvalidRequest
error with id null - and the connection loop sends that frame to the client.
So "id absent implies no response regardless of whether method is present"
is false on the code. -/
theorem missing_method_notification_gets_response :
    handle_request initialServer (.obj []) =
      (.ok (some (create_error_response .null (-32600) "Invalid request")), initialServer, []) ∧
    (handle_request initialServer (.obj [])).1 ≠ .ok none ∧
    loop_step initialServer [7] 7 (.parsed (.obj [])) =
      (initialServer, [(7, create_error_response .null (-32600) "Invalid request")]) := by
  have h : handle_request initialServer (.obj ([] : List (String × Json))) =
      (.ok (some (create_error_response .null (-32600) "Invalid request")), initialServer, []) := by
    rw [handle_request_obj]
    rfl
  refine ⟨h, ?_, ?_⟩
  · rw [h]
    simp
  · simp only [loop_step, h]
    rfl

/-- C6 amended: a decoded request object whose `method` key is present and
whose `id` is absent (or null, which `request.get` conflates with absent) is
a notification: the dispatcher returns no response before any handler
lookup, mutates nothing, broadcasts nothing, and the loop sends nothing. -/
theorem notification_with_method_no_response (srv : ServerState) (conns : List Nat) (ws : Nat)
    (kvs : List (String × Json)) (m : Json)
    (hm : dictGet kvs "method" = some m)
    (hid : ((dictGet kvs "id").getD .null).isNull = true) :
    handle_request srv (.obj kvs) = (.ok none, srv, []) ∧
    loop_step srv conns ws (.parsed (.obj kvs)) = (srv, []) := by
  have h1 : handle_request srv (.obj kvs) = (.ok none, srv, []) := by
    rw [handle_request_obj]
    unfold dispatchObj
    split
    · rename_i heq
      rw [heq] at hm
      exact absurd hm (by simp)
    · rename_i m2 heq
      simp only [hid, if_true]
  refine ⟨h1, ?_⟩
  simp only [loop_step, h1]
  simp [sendsOfEvents]

/-- Witness for C6 amended: a concrete id-less `play` request produces no
response and no frame at all. -/
theorem notification_with_method_no_response_witness :
    handle_request initialServer (.obj [("method", .str "play")]) = (.ok none, initialServer, []) ∧
    loop_step initialServer [7] 7 (.parsed (.obj [("method", .str "play")])) = (initialServer, []) :=
  notification_with_method_no_response initialServer [7] 7 _ (.str "play") rfl rfl

/-- C7: a `load` request carrying a non-null id whose params lack `url` is
answered with the InternalError-style response: code -32603, the failure's
message text "URL is required", the id echoed; the state is unchanged and no
broadcast happens (the ValueError is raised before any mutation). -/
theorem load_missing_url_internal_error (srv : ServerState)
    (kvs pk : List (String × Json)) (idv : Json)
    (hm : dictGet kvs "method" = some (.str "load"))
    (hid : (dictGet kvs "id").getD .null = idv)
    (hnn : idv.isNull = false)
    (hp : (dictGet kvs "params").getD (.obj []) = .obj pk)
    (hu : dictGet pk "url" = none) :
    handle_request srv (.obj kvs) =
      (.ok (some (create_error_response idv (-32603) "URL is required")), srv, []) := by
  rw [handle_request_obj]
  unfold dispatchObj
  split
  · rename_i heq
    rw [heq] at hm
    exact absurd hm (by simp)
  · rename_i m heq
    rw [heq] at hm
    injection hm with hm2
    subst hm2
    simp only [hid, hnn, Bool.false_eq_true, if_false]
    show wrapCall idv (handle_load srv ((dictGet kvs "params").getD (.obj []))) = _
    rw [hp]
    have hload : handle_load srv (.obj pk) = (.error (.valueError "URL is required"), srv, []) := by
      unfold handle_load
      simp only [pyContains, hu, Option.isSome_none]
    rw [hload]
    rfl

/-- Witness for C7: a concrete `load` with empty params and id 5. -/
theorem load_missing_url_internal_error_witness :
    handle_request initialServer
      (.obj [("method", .str "load"), ("id", .num 5), ("params", .obj [])]) =
      (.ok (some (create_error_response (.num 5) (-32603) "URL is required")), initialServer, []) :=
  load_missing_url_internal_error initialServer _ [] (.num 5) rfl rfl rfl rfl rfl

/-- C2: a `setVolume` request (with a non-null id) whose params carry a
float-coercible `level` v answers `true`, sets the volume to
`max 0 (min 1 (float v))`, and makes one broadcast whose `stateChanged`
payload carries that volume, delivered to every connected session; with
`level` absent it answers `true`, changes nothing and broadcasts nothing. -/
theorem setVolume_clamps_and_broadcasts (srv : ServerState) (conns : List Nat)
    (kvs pk : List (String × Json)) (idv : Json)
    (hm : dictGet kvs "method" = some (.str "setVolume"))
    (hid : (dictGet kvs "id").getD .null = idv)
    (hnn : idv.isNull = false)
    (hp : (dictGet kvs "params").getD (.obj []) = .obj pk) :
    (∀ v q, dictGet pk "level" = some v → pyFloat v = .ok q →
      handle_request srv (.obj kvs) =
        (.ok (some (resultResponse idv (.bool true))),
         { srv with volume := max 0 (min 1 q) },
         [{ srv with volume := max 0 (min 1 q) }]) ∧
      jField (stateJson { srv with volume := max 0 (min 1 q) }) "volume" =
        some (.num (max 0 (min 1 q))) ∧
      ∀ c ∈ conns,
        (c, stateChangedMsg { srv with volume := max 0 (min 1 q) }) ∈
          sendsOfEvents conns [{ srv with volume := max 0 (min 1 q) }]) ∧
    (dictGet pk "level" = none →
      handle_request srv (.obj kvs) = (.ok (some (resultResponse idv (.bool true))), srv, [])) := by
  have hdisp : handle_request srv (.obj kvs) = wrapCall idv (handle_setVolume srv (.obj pk)) := by
    rw [handle_request_obj]
    unfold dispatchObj
    split
    · rename_i heq
      rw [heq] at hm
      exact absurd hm (by simp)
    · rename_i m heq
      rw [heq] at hm
      injection hm with hm2
      subst hm2
      simp only [hid, hnn, Bool.false_eq_true, if_false]
      show wrapCall idv (handle_setVolume srv ((dictGet kvs "params").getD (.obj []))) = _
      rw [hp]
  constructor
  · intro v q hl hq
    have hsv : handle_setVolume srv (.obj pk) =
        ((.ok (.bool true)),
         { srv with volume := max 0 (min 1 q) },
         [{ srv with volume := max 0 (min 1 q) }]) := by
      unfold handle_setVolume
      simp only [pyContains, hl, Option.isSome_some, pyGetItem, hq]
    refine ⟨by rw [hdisp, hsv]; rfl, rfl, ?_⟩
    intro c hc
    have hne : conns ≠ [] := by
      intro h0
      rw [h0] at hc
      simp at hc
    simp only [sendsOfEvents, List.map_cons, List.map_nil, List.flatten_cons,
      List.flatten_nil, List.append_nil]
    rw [broadcast_state, if_neg hne]
    exact List.mem_map_of_mem _ hc
  · intro hl
    have hsv : handle_setVolume srv (.obj pk) = ((.ok (.bool true)), srv, []) := by
      unfold handle_setVolume
      simp only [pyContains, hl, Option.isSome_none]
    rw [hdisp, hsv]
    rfl

/-- Witness for C2: level 2 on two connected sessions clamps to volume 1 and
both sessions receive the broadcast; then a levelless `setVolume` no-ops. -/
theorem setVolume_clamps_and_broadcasts_witness :
    (handle_request initialServer
      (.obj [("method", .str "setVolume"), ("id", .num 7), ("params", .obj [("level", .num 2)])]) =
      (.ok (some (resultResponse (.num 7) (.bool true))),
       { initialServer with volume := max 0 (min 1 2) },
       [{ initialServer with volume := max 0 (min 1 2) }]) ∧
     jField (stateJson { initialServer with volume := max 0 (min 1 2) }) "volume" =
       some (.num (max 0 (min 1 2))) ∧
     ∀ c ∈ [1, 2],
       (c, stateChangedMsg { initialServer with volume := max 0 (min 1 2) }) ∈
         sendsOfEvents [1, 2] [{ initialServer with volume := max 0 (min 1 2) }]) ∧
    handle_request initialServer (.obj [("method", .str "setVolume"), ("id", .num 7)]) =
      (.ok (some (resultResponse (.num 7) (.bool true))), initialServer, []) := by
  constructor
  · exact (setVolume_clamps_and_broadcasts initialServer [1, 2]
      [("method", .str "setVolume"), ("id", .num 7), ("params", .obj [("level", .num 2)])]
      [("level", .num 2)] (.num 7) rfl rfl rfl rfl).1 (.num 2) 2 rfl rfl
  · exact (setVolume_clamps_and_broadcasts initialServer [1, 2]
      [("method", .str "setVolume"), ("id", .num 7)] [] (.num 7)
      rfl rfl rfl rfl).2 rfl

/-- C4: a `load` request (non-null id) whose params carry `url` answers
`true`, installs a fresh media dict {url, media_type "music", duration 0,
position 0}, broadcasts exactly once, and sets the state to `playing` when
`options.autoplay` is true or absent (the default) and to `paused` when it
is false. -/
theorem load_dispatch_success (srv : ServerState)
    (kvs pk okvs : List (String × Json)) (idv u : Json)
    (hm : dictGet kvs "method" = some (.str "load"))
    (hid : (dictGet kvs "id").getD .null = idv)
    (hnn : idv.isNull = false)
    (hp : (dictGet kvs "params").getD (.obj []) = .obj pk)
    (hu : dictGet pk "url" = some u)
    (ho : (dictGet pk "options").getD (.obj []) = .obj okvs) :
    handle_request srv (.obj kvs) =
      (.ok (some (resultResponse idv (.bool true))),
       loadState srv u (pyTruthy ((dictGet okvs "autoplay").getD (.bool true))),
       [loadState srv u (pyTruthy ((dictGet okvs "autoplay").getD (.bool true)))]) ∧
    ((dictGet okvs "autoplay" = none ∨ dictGet okvs "autoplay" = some (.bool true)) →
      (loadState srv u (pyTruthy ((dictGet okvs "autoplay").getD (.bool true)))).state = "playing") ∧
    (dictGet okvs "autoplay" = some (.bool false) →
      (loadState srv u (pyTruthy ((dictGet okvs "autoplay").getD (.bool true)))).state = "paused") ∧
    mediaDeref (loadState srv u (pyTruthy ((dictGet okvs "autoplay").getD (.bool true)))) =
      some { url := u, media_type := "music", duration := 0, position := 0 } := by
  have hdisp : handle_request srv (.obj kvs) = wrapCall idv (handle_load srv (.obj pk)) := by
    rw [handle_request_obj]
    unfold dispatchObj
    split
    · rename_i heq
      rw [heq] at hm
      exact absurd hm (by simp)
    · rename_i m heq
      rw [heq] at hm
      injection hm with hm2
      subst hm2
      simp only [hid, hnn, Bool.false_eq_true, if_false]
      show wrapCall idv (handle_load srv ((dictGet kvs "params").getD (.obj []))) = _
      rw [hp]
  have hload : handle_load srv (.obj pk) =
      ((.ok (.bool true)),
       loadState srv u (pyTruthy ((dictGet okvs "autoplay").getD (.bool true))),
       [loadState srv u (pyTruthy ((dictGet okvs "autoplay").getD (.bool true)))]) := by
    unfold handle_load
    simp only [pyContains, hu, Option.isSome_some, pyGetItem, pyGet, ho]
    rfl
  refine ⟨by rw [hdisp, hload]; rfl, ?_, ?_, ?_⟩
  · intro hap
    rcases hap with h | h <;> simp [loadState, h, pyTruthy]
  · intro h
    simp [loadState, h, pyTruthy]
  · simp only [mediaDeref, loadState, Option.bind]
    exact List.getElem?_concat_length srv.heap _

/-- Witness for C4: the spec's example request - `load` of "a.mp3" with
autoplay false - yields state `paused`, media url "a.mp3", position 0. -/
theorem load_dispatch_success_witness :
    handle_request initialServer
      (.obj [("method", .str "load"), ("id", .num 1),
             ("params", .obj [("url", .str "a.mp3"),
                              ("options", .obj [("autoplay", .bool false)])])]) =
      (.ok (some (resultResponse (.num 1) (.bool true))),
       loadState initialServer (.str "a.mp3") false,
       [loadState initialServer (.str "a.mp3") false]) ∧
    (loadState initialServer (.str "a.mp3") false).state = "paused" ∧
    mediaDeref (loadState initialServer (.str "a.mp3") false) =
      some { url := .str "a.mp3", media_type := "music", duration := 0, position := 0 } := by
  have h := load_dispatch_success initialServer
    [("method", .str "load"), ("id", .num 1),
     ("params", .obj [("url", .str "a.mp3"), ("options", .obj [("autoplay", .bool false)])])]
    [("url", .str "a.mp3"), ("options", .obj [("autoplay", .bool false)])]
    [("autoplay", Json.bool false)]
    (.num 1) (.str "a.mp3") rfl rfl rfl rfl rfl rfl
  exact ⟨h.1, rfl, h.2.2.2⟩

/-- C1 (code-bug exhibit): the invariant "media is absent whenever state is
idle" is not preserved by every dispatched operation.  From the initial state,
a `load` carrying `url` but a non-dict `options` value installs the media dict
(line 225) and then raises AttributeError while evaluating
`params.get("options", {}).get("autoplay", True)` (line 232), before the
state transition on line 231; the dispatcher catches the error, leaving
`state == "idle"` with `media` present - a partially applied mutation. -/
theorem load_bad_options_breaks_idle_media_invariant :
    (runRequests initialServer
      [.obj [("method", .str "load"), ("id", .num 1),
             ("params", .obj [("url", .str "x"), ("options", .num 5)])]]).state = "idle" ∧
    (runRequests initialServer
      [.obj [("method", .str "load"), ("id", .num 1),
             ("params", .obj [("url", .str "x"), ("options", .num 5)])]]).media ≠ none := by
  have h : runRequests initialServer
      [.obj [("method", .str "load"), ("id", .num 1),
             ("params", .obj [("url", .str "x"), ("options", .num 5)])]] =
      { initialServer with
        media := some 0,
        heap := [{ url := .str "x", media_type := "music", duration := 0, position := 0 }] } := by
    simp only [runRequests]
    rw [handle_request_obj]
    rfl
  rw [h]
  exact ⟨rfl, by simp⟩

set_option maxHeartbeats 2000000 in
/-- C8 counterexample: the reflective lookup `getattr(self, f"handle_{method}")`
also resolves method `"request"` (to `handle_request` itself), so a request
with that unrecognized-by-the-table method name does not get the -32601
MethodNotFound error: the dispatcher recursively dispatches the params value
and wraps the inner return value as a success response (a response with a
`result` field and no `error` field). -/
theorem method_request_dispatches_internal_handler :
    handle_request initialServer
      (.obj [("method", .str "request"), ("id", .num 1), ("params", .obj [])]) =
      (.ok (some (resultResponse (.num 1) (create_error_response .null (-32600) "Invalid request"))),
       initialServer, []) ∧
    jField (resultResponse (.num 1) (create_error_response .null (-32600) "Invalid request"))
      "error" = none ∧
    jField (resultResponse (.num 1) (create_error_response .null (-32600) "Invalid request"))
      "result" = some (create_error_response .null (-32600) "Invalid request") := by
  have hinner : handle_request initialServer (.obj ([] : List (String × Json))) =
      (.ok (some (create_error_response .null (-32600) "Invalid request")), initialServer, []) := by
    rw [handle_request_obj]
    rfl
  refine ⟨?_, rfl, rfl⟩
  rw [handle_request_obj]
  show wrapCall (.num 1) (innerToHandler (handle_request initialServer (.obj []))) = _
  rw [hinner]
  rfl

set_option maxHeartbeats 2000000 in
/-- C8 amended: a request (non-null id) whose method value names none of the
`handle_`-prefixed attributes - the seven protocol methods plus the internal
`"request"` and `"client"` names, with every non-string value included - is
answered with -32601 "Method not found", the id echoed, the state unchanged
and nothing broadcast. -/
theorem unrecognized_method_not_found (srv : ServerState)
    (kvs : List (String × Json)) (m idv : Json)
    (hm : dictGet kvs "method" = some m)
    (hb : isHandlerMethod m = false)
    (hid : (dictGet kvs "id").getD .null = idv)
    (hnn : idv.isNull = false) :
    handle_request srv (.obj kvs) =
      (.ok (some (create_error_response idv (-32601) "Method not found")), srv, []) := by
  rw [handle_request_obj]
  unfold dispatchObj
  split
  · rename_i heq
    rw [heq] at hm
    exact absurd hm (by simp)
  · rename_i m2 heq
    rw [heq] at hm
    injection hm with hm2
    subst hm2
    simp only [hid, hnn, Bool.false_eq_true, if_false]
    split <;>
      first
      | rfl
      | simp [isHandlerMethod] at hb

/-- Witness for C8 amended: the spec's example method `"seek"` with id 9. -/
theorem unrecognized_method_not_found_witness :
    handle_request initialServer (.obj [("method", .str "seek"), ("id", .num 9)]) =
      (.ok (some (create_error_response (.num 9) (-32601) "Method not found")), initialServer, []) :=
  unrecognized_method_not_found initialServer [("method", .str "seek"), ("id", .num 9)]
    (.str "seek") (.num 9) rfl rfl rfl rfl

/-- C9 counterexample: `get_state_dict` copies `self.state.media` by
reference, not deeply: right after a `load`, the snapshot and the live state
reference the same media dict (heap cell 0), so the snapshot does share
mutable structure with the live state. -/
theorem snapshot_shares_media_reference :
    sharesMediaRef
      (get_state_dict (handle_load initialServer (.obj [("url", .str "a.mp3")])).2.1)
      (handle_load initialServer (.obj [("url", .str "a.mp3")])).2.1 ∧
    (handle_load initialServer (.obj [("url", .str "a.mp3")])).2.1.media = some 0 ∧
    (get_state_dict (handle_load initialServer (.obj [("url", .str "a.mp3")])).2.1).media = some 0 :=
  ⟨⟨0, rfl, rfl⟩, rfl, rfl⟩

/-- C9 amended: `handle_getState` mutates nothing and returns the serialized
current snapshot; and although the snapshot shares the media dict with the
live state, no operation ever mutates a heap cell (operations only rebind the
reference or allocate fresh cells), so the serialized content of a snapshot
taken before any request sequence is unchanged by it. -/
theorem getState_snapshot_point_in_time (srv : ServerState) (p : Json) (reqs : List Json)
    (hwf : ∀ a, srv.media = some a → a < srv.heap.length) :
    handle_getState srv p = (.ok (stateJson srv), srv, []) ∧
    dumpStateDict (runRequests srv reqs).heap (get_state_dict srv) =
      dumpStateDict srv.heap (get_state_dict srv) := by
  refine ⟨rfl, ?_⟩
  obtain ⟨t, ht⟩ := runRequests_heap reqs srv
  rw [ht]
  have hgen : ∀ (heap t2 : List MediaDict) (sd : StateDict),
      (∀ a, sd.media = some a → a < heap.length) →
      dumpStateDict (heap ++ t2) sd = dumpStateDict heap sd := by
    intro heap t2 sd hb
    unfold dumpStateDict
    cases hsm : sd.media with
    | none => rfl
    | some a =>
      have hlt := hb a hsm
      simp [List.getElem?_append, hlt]
  exact hgen srv.heap t (get_state_dict srv) (fun a ha => hwf a ha)

/-- Witness for C9 amended: a freshly loaded state's snapshot serializes
identically before and after a subsequent `stop`. -/
theorem getState_snapshot_point_in_time_witness :
    handle_getState
      { state := "playing", media := some 0, volume := 1, muted := false, error := none,
        heap := [{ url := .str "a.mp3", media_type := "music", duration := 0, position := 0 }] }
      .null =
      (.ok (stateJson
        { state := "playing", media := some 0, volume := 1, muted := false, error := none,
          heap := [{ url := .str "a.mp3", media_type := "music", duration := 0, position := 0 }] }),
       { state := "playing", media := some 0, volume := 1, muted := false, error := none,
         heap := [{ url := .str "a.mp3", media_type := "music", duration := 0, position := 0 }] },
       []) ∧
    dumpStateDict
      (runRequests
        { state := "playing", media := some 0, volume := 1, muted := false, error := none,
          heap := [{ url := .str "a.mp3", media_type := "music", duration := 0, position := 0 }] }
        [.obj [("method", .str "stop"), ("id", .num 2)]]).heap
      (get_state_dict
        { state := "playing", media := some 0, volume := 1, muted := false, error := none,
          heap := [{ url := .str "a.mp3", media_type := "music", duration := 0, position := 0 }] }) =
    dumpStateDict
      [{ url := .str "a.mp3", media_type := "music", duration := 0, position := 0 }]
      (get_state_dict
        { state := "playing", media := some 0, volume := 1, muted := false, error := none,
          heap := [{ url := .str "a.mp3", media_type := "music", duration := 0, position := 0 }] }) :=
  getState_snapshot_point_in_time
    { state := "playing", media := some 0, volume := 1, muted := false, error := none,
      heap := [{ url := .str "a.mp3", media_type := "music", duration := 0, position := 0 }] }
    .null [.obj [("method", .str "stop"), ("id", .num 2)]]
    (by intro a ha; cases ha; decide)

/-- C10: a frame that decodes to a non-object JSON value escapes the
dispatcher as an exception (no InvalidRequest reply is built), the
per-connection loop answers with the generic -32603 "Internal error" frame
with id null, the state is untouched, and the loop goes on to process the
remaining frames exactly as it would have without this one. -/
theorem non_object_frame_internal_error_continues (srv : ServerState)
    (conns : List Nat) (ws : Nat) (j : Json)
    (hno : j.isObj = false) :
    (∃ e, handle_request srv j = (.error e, srv, [])) ∧
    loop_step srv conns ws (.parsed j) = (srv, [(ws, send_error_msg (-32603) "Internal error")]) ∧
    ∀ rest, loop_run srv conns ws (.parsed j :: rest) =
      ((loop_run srv conns ws rest).1,
       (ws, send_error_msg (-32603) "Internal error") :: (loop_run srv conns ws rest).2) := by
  obtain ⟨e, he⟩ := handle_request_nonObj srv j hno
  have hstep : loop_step srv conns ws (.parsed j) =
      (srv, [(ws, send_error_msg (-32603) "Internal error")]) := by
    simp only [loop_step, he]
    simp [sendsOfEvents]
  refine ⟨⟨e, he⟩, hstep, ?_⟩
  intro rest
  simp only [loop_run, hstep]
  rfl

/-- Witness for C10: an array frame gets the Internal error frame and the
following malformed frame is still answered with Parse error. -/
theorem non_object_frame_internal_error_continues_witness :
    loop_run initialServer [4] 4 [.parsed (.arr []), .malformed] =
      (initialServer,
       [(4, send_error_msg (-32603) "Internal error"),
        (4, send_error_msg (-32700) "Parse error")]) := by
  have h := (non_object_frame_internal_error_continues initialServer [4] 4 (.arr []) rfl).2.2
    [.malformed]
  rw [h]
  rfl

end VanMedia
